import Mathlib

/-!
Shallow embedding of the AgentScope runtime/platform core
(src/agentscope/runtime and src/agentscope/platform) and proofs about it.

Machine-level conventions:
* JSON values are the inductive `Json` below; Python `json.dumps`/`json.loads`
  is the identity on such values, so serialization is elided.
* Client, model and app handles are opaque `Nat` tags.
* Python exceptions become `Except`/`Option` results; code that mutates
  `self` and may raise is embedded as a function returning the (possibly
  partially mutated) state together with the raised error, mirroring the
  fact that a raised exception does not roll back prior field assignments.
* Network and release side effects are recorded as explicit effect traces.
-/

namespace AScope

/-- JSON-representable values (Python dict/list/str/int/bool/None). -/
inductive Json where
  | null
  | bool (b : Bool)
  | num (n : Int)
  | str (s : String)
  | arr (items : List Json)
  | obj (fields : List (String × Json))

/-- First-match association-list lookup (Python dict `get` with unique keys). -/
def assocGet {α : Type} : List (String × α) → String → Option α
  | [], _ => none
  | (k, v) :: rest, n => if k = n then some v else assocGet rest n

/-- Python dict insertion: replace in place when the key exists, else append
(dicts preserve insertion order). -/
def assocSet {α : Type} : List (String × α) → String → α → List (String × α)
  | [], n, v => [(n, v)]
  | (k, w) :: rest, n, v =>
    if k = n then (n, v) :: rest else (k, w) :: assocSet rest n v

/-- `payload.get(key)` on a JSON value: field lookup on objects, `None`
otherwise. -/
def Json.get : Json → String → Option Json
  | .obj fields, k => assocGet fields k
  | _, _ => none

/-- Python truthiness of a JSON value (`bool(x)`). -/
def Json.falsy : Json → Bool
  | .null => true
  | .bool b => !b
  | .num n => n = 0
  | .str s => s.data.isEmpty
  | .arr items => items.isEmpty
  | .obj fields => fields.isEmpty

/-- `isinstance(x, dict)` on a JSON value. -/
def Json.isObj : Json → Bool
  | .obj _ => true
  | _ => false

/-- Python `name.startswith("_")`, embedded on the character list. -/
def startsWithUnderscore (name : String) : Bool :=
  match name.data with
  | [] => false
  | c :: _ => c = '_'

/-- Opaque handle of a connected chat-model client. -/
abbrev ModelH := Nat

/-- Opaque handle of a connected MCP (tool-provider) client. -/
abbrev ClientH := Nat

/-- Opaque handle of the loaded user `App` instance. -/
abbrev AppH := Nat

/-! ## ModelRegistry (runtime/_runtime.py) -/

/-- `ModelRegistry._models`: slot name to model, in registration order. -/
structure ModelRegistry where
  models : List (String × ModelH)
deriving DecidableEq

/-- Errors raised by registry lookups.  `noAttribute` is the plain
`AttributeError` for underscore-prefixed names; the two `slotNotFound`
variants carry the enumerated list of currently registered slot names that
appears in their message. -/
inductive LookupError where
  | noAttribute (typeName attr : String)
  | slotNotFoundAttr (name : String) (available : List String)
  | slotNotFoundKey (name : String) (available : List String)
deriving DecidableEq

/-- Whether a lookup error's message enumerates the registered slot names. -/
def LookupError.enumeratesSlots : LookupError → Bool
  | .noAttribute _ _ => false
  | .slotNotFoundAttr _ _ => true
  | .slotNotFoundKey _ _ => true

/-- `ModelRegistry._register`. -/
def ModelRegistry.register (reg : ModelRegistry) (name : String)
    (m : ModelH) : ModelRegistry :=
  ⟨assocSet reg.models name m⟩

/-- `ModelRegistry.keys()`. -/
def ModelRegistry.keys (reg : ModelRegistry) : List String :=
  reg.models.map Prod.fst

/-- `ModelRegistry.__contains__`. -/
def ModelRegistry.contains (reg : ModelRegistry) (name : String) : Bool :=
  (assocGet reg.models name).isSome

/-- `ModelRegistry.__getattr__` (attribute-style lookup): names starting
with an underscore raise a plain `AttributeError`; unregistered names raise
an `AttributeError` listing the available slots. -/
def ModelRegistry.getattr (reg : ModelRegistry) (name : String) :
    Except LookupError ModelH :=
  if startsWithUnderscore name then
    .error (.noAttribute "ModelRegistry" name)
  else
    match assocGet reg.models name with
    | none => .error (.slotNotFoundAttr name reg.keys)
    | some m => .ok m

/-- `ModelRegistry.__getitem__` (key-style lookup). -/
def ModelRegistry.getitem (reg : ModelRegistry) (name : String) :
    Except LookupError ModelH :=
  match assocGet reg.models name with
  | none => .error (.slotNotFoundKey name reg.keys)
  | some m => .ok m

/-! ## PlatformClient (runtime/_platform.py) -/

/-- `PlatformConfig` fields used by the supervisory client. -/
structure PlatformConfig where
  endpoint : Option String
  instanceId : Option String
  heartbeatInterval : Nat
deriving DecidableEq

/-- In-memory state of `PlatformClient`: its configuration, whether the
background heartbeat task has been created, the request counter and the
set of recently seen session ids (kept as a duplicate-free list). -/
structure PlatformClientS where
  config : PlatformConfig
  heartbeatTask : Bool
  requestCount : Nat
  activeSessions : List String
deriving DecidableEq

/-- `PlatformClient.enabled`: both endpoint and instance id configured. -/
def PlatformClientS.enabled (s : PlatformClientS) : Bool :=
  s.config.endpoint.isSome && s.config.instanceId.isSome

/-- Set insertion for the active-session set. -/
def insertSession (sid : String) (seen : List String) : List String :=
  if sid ∈ seen then seen else seen ++ [sid]

/-- `PlatformClient.record_request`: unconditionally bumps the counter and
adds the session id to the seen set. -/
def PlatformClientS.recordRequest (s : PlatformClientS) (sid : String) :
    PlatformClientS :=
  { s with
    requestCount := s.requestCount + 1
    activeSessions := insertSession sid s.activeSessions }

/-- An outbound network call made by the supervisory client. -/
inductive NetEffect where
  | post (url : String)
  | get (url : String)
deriving DecidableEq

/-- `PlatformClient._send_heartbeat`: returns early with no I/O when
disabled, otherwise POSTs the liveness payload. -/
def PlatformClientS.sendHeartbeatEffects (s : PlatformClientS) :
    List NetEffect :=
  match s.config.endpoint, s.config.instanceId with
  | some ep, some iid =>
    [NetEffect.post (ep ++ "/instances/" ++ iid ++ "/heartbeat")]
  | _, _ => []

/-- `PlatformClient._check_config_update`: returns early with no I/O when
disabled, otherwise GETs the config-update query. -/
def PlatformClientS.checkConfigUpdateEffects (s : PlatformClientS) :
    List NetEffect :=
  match s.config.endpoint, s.config.instanceId with
  | some ep, some iid =>
    [NetEffect.get (ep ++ "/instances/" ++ iid ++ "/config")]
  | _, _ => []

/-- `PlatformClient.start`: does nothing when disabled, otherwise creates
the background heartbeat task. -/
def PlatformClientS.start (s : PlatformClientS) : PlatformClientS :=
  if s.enabled then { s with heartbeatTask := true } else s

/-! ## Runtime orchestrator (runtime/_runtime.py) -/

/-- Per-slot model configuration (fields relevant to orchestration). -/
structure ModelConfig where
  provider : String
  model : String
deriving DecidableEq

/-- Per-slot MCP server configuration. -/
structure MCPServerConfig where
  url : String
  transport : String
deriving DecidableEq

/-- Session backend descriptor. -/
structure SessionConfig where
  saveDir : String
deriving DecidableEq

/-- Parsed runtime configuration (`RuntimeConfig`), with the model and MCP
mappings in declaration order. -/
structure RuntimeConfig where
  models : List (String × ModelConfig)
  mcpServers : List (String × MCPServerConfig)
  session : SessionConfig
deriving DecidableEq

/-- Mutable state of a `Runtime` instance.  The toolkit is modelled as the
list of MCP clients whose tools were merged into it; the session store by
its save directory. -/
structure RuntimeS where
  initialized : Bool
  config : Option RuntimeConfig
  app : Option AppH
  mcpClients : List ClientH
  models : ModelRegistry
  tools : Option (List ClientH)
  sessionStore : Option String
deriving DecidableEq

/-- A freshly constructed `Runtime()` instance. -/
def RuntimeS.fresh : RuntimeS :=
  ⟨false, none, none, [], ⟨[]⟩, none, none⟩

/-- Outcomes of the external steps performed by `Runtime.initialize`:
configuration loading, per-slot model construction, per-slot MCP client
connection, toolkit registration of a connected client, loading of the
user app, and the app's startup hook. -/
structure InitWorld where
  configResult : Except String RuntimeConfig
  createModel : String → ModelConfig → Except String ModelH
  mcpConnect : String → MCPServerConfig → Except String ClientH
  registerTools : ClientH → Except String Unit
  loadApp : Except String AppH
  startupResult : Except String Unit

/-- The model-registration loop of `Runtime.initialize` (step 2): registers
each configured slot in declaration order, stopping at (and propagating)
the first creation failure; already-registered models are kept. -/
def registerModelsLoop (w : InitWorld) (rt : RuntimeS) :
    List (String × ModelConfig) → RuntimeS × Option String
  | [] => (rt, none)
  | (n, mc) :: rest =>
    match w.createModel n mc with
    | .error e => (rt, some e)
    | .ok m =>
      registerModelsLoop w { rt with models := rt.models.register n m } rest

/-- Append a client's tools to the toolkit. -/
def addTool (tools : Option (List ClientH)) (c : ClientH) :
    Option (List ClientH) :=
  tools.map (fun l => l ++ [c])

/-- The MCP-connection loop of `Runtime.initialize` (step 3): connects each
configured server in declaration order, appends the connected client to
`_mcp_clients`, then merges its tools; stops at (and propagates) the first
failure, keeping the clients connected so far. -/
def connectMcpLoop (w : InitWorld) (rt : RuntimeS) :
    List (String × MCPServerConfig) → RuntimeS × Option String
  | [] => (rt, none)
  | (n, sc) :: rest =>
    match w.mcpConnect n sc with
    | .error e => (rt, some e)
    | .ok c =>
      let rt1 := { rt with mcpClients := rt.mcpClients ++ [c] }
      match w.registerTools c with
      | .error e => (rt1, some e)
      | .ok _ =>
        connectMcpLoop w { rt1 with tools := addTool rt1.tools c } rest

/-- The message of the duplicate-initialize `RuntimeError`. -/
def alreadyInitializedMsg : String :=
  "Runtime is already initialized. " ++
  "Call `await runtime.shutdown()` first to reinitialize."

/-- `Runtime.initialize`: rejects a second call on an initialized instance
before any mutation; otherwise runs steps 1-6, mutating the instance as it
goes, and flips `initialized` only after every step succeeded.  The second
component is the raised error, if any; the first is the instance state
after the call (a failure keeps the mutations made so far, as in Python). -/
def initializeRt (rt : RuntimeS) (w : InitWorld) : RuntimeS × Option String :=
  if rt.initialized then
    (rt, some alreadyInitializedMsg)
  else
    match w.configResult with
    | .error e => (rt, some e)
    | .ok cfg =>
      let rt1 := { rt with config := some cfg }
      match registerModelsLoop w rt1 cfg.models with
      | (rt2, some e) => (rt2, some e)
      | (rt2, none) =>
        let rt3 := { rt2 with tools := some [] }
        match connectMcpLoop w rt3 cfg.mcpServers with
        | (rt4, some e) => (rt4, some e)
        | (rt4, none) =>
          let rt5 := { rt4 with sessionStore := some cfg.session.saveDir }
          match w.loadApp with
          | .error e => (rt5, some e)
          | .ok a =>
            let rt6 := { rt5 with app := some a }
            match w.startupResult with
            | .error e => (rt6, some e)
            | .ok _ => ({ rt6 with initialized := true }, none)

/-- Outcomes of the external calls made by `Runtime.shutdown`. -/
structure ShutWorld where
  appShutdownResult : Except String Unit
  closeClient : ClientH → Except String Unit

/-- Whether an external call succeeded. -/
def isOkE (r : Except String Unit) : Bool :=
  match r with
  | .ok _ => true
  | .error _ => false

/-- An observable action of `Runtime.shutdown`. -/
inductive ShutEffect where
  | appShutdownCall (ok : Bool)
  | closeCall (c : ClientH) (ok : Bool)
deriving DecidableEq

/-- The client-release loop of `Runtime.shutdown`: every client in the
given list gets a `close()` call; a failure is caught and logged and the
loop continues with the rest. -/
def closeAllLoop (w : ShutWorld) : List ClientH → List ShutEffect
  | [] => []
  | c :: rest =>
    ShutEffect.closeCall c (isOkE (w.closeClient c)) :: closeAllLoop w rest

/-- `Runtime.shutdown`: a no-op when not initialized; otherwise calls the
app shutdown hook (failure logged), closes the MCP clients in reverse
registration order (failures logged, loop continues), clears every field
and flips `initialized` back to false. -/
def shutdownRt (rt : RuntimeS) (w : ShutWorld) :
    RuntimeS × List ShutEffect :=
  if rt.initialized then
    let appEff : List ShutEffect :=
      match rt.app with
      | some _ => [ShutEffect.appShutdownCall (isOkE w.appShutdownResult)]
      | none => []
    let closeEffs := closeAllLoop w rt.mcpClients.reverse
    (RuntimeS.fresh, appEff ++ closeEffs)
  else
    (rt, [])

/-- The client a `ShutEffect` closed, if it is a close call. -/
def closeTarget : ShutEffect → Option ClientH
  | .closeCall c _ => some c
  | _ => none

/-! ## Runtime streaming gateway: POST /invoke (runtime/_server.py) -/

/-- One run of the user's `App` async generator: `units` is the sequence
of produced messages, each given by its serialization result (`some j` if
`json.dumps(out_msg.to_dict())` yields `j`, `none` if it raises); if the
generator raises after producing them, `raisedMsg` carries the message. -/
structure AppRun where
  units : List (Option Json)
  raisedMsg : Option String

/-- An SSE frame emitted by `/invoke`: a data frame for one unit, the
error unit, or the terminal done marker. -/
inductive Frame where
  | dataF (j : Json)
  | errorF (code msg : String)
  | doneF

/-- The placeholder payload used when serializing a unit fails. -/
def placeholderJson : Json :=
  .obj [("name", .str "system"), ("role", .str "assistant"),
        ("content", .str "<serialization-error>")]

/-- Serialize one unit into its frame, degrading to the placeholder on a
serialization failure. -/
def serializeUnitFrame : Option Json → Frame
  | some j => .dataF j
  | none => .dataF placeholderJson

/-- The per-unit body of the `async for` loop in `invoke.event_iter`. -/
def unitFramesLoop : List (Option Json) → List Frame
  | [] => []
  | u :: rest => serializeUnitFrame u :: unitFramesLoop rest

/-- `invoke.event_iter`: stream the app's units as they are produced; if
the app raised, emit one error unit; in every case emit the final done
marker. -/
def eventIter (run : AppRun) : List Frame :=
  unitFramesLoop run.units ++
    (match run.raisedMsg with
     | some e => [Frame.errorF "APP_ERROR" e]
     | none => []) ++
    [Frame.doneF]

/-- Whether a frame is the terminal marker. -/
def isTerminal : Frame → Bool
  | .doneF => true
  | _ => false

/-- The HTTP-level result of `POST /invoke`: an HTTP 400 rejection before
any stream is opened, or the opened SSE stream with its frames. -/
inductive InvokeResult where
  | badRequest (status : Nat) (detail : String)
  | streamR (frames : List Frame)

/-- The `session_id` validation of `/invoke`: missing, not a string, or
the empty string. -/
def sessionIdBad (payload : Json) : Bool :=
  match payload.get "session_id" with
  | some (.str s) => s.data.isEmpty
  | _ => true

/-- Whether `payload.get("message")` is not a JSON object. -/
def messageNotObj (payload : Json) : Bool :=
  match payload.get "message" with
  | some (Json.obj _) => false
  | _ => true

/-- The `/invoke` request handler.  `body` is `none` when the request body
is not valid JSON; `msgParseOk` is the outcome of `Msg.from_dict` on the
message object; `run` is the app's production for this request.
Validation happens, in source order, before the streaming response is
constructed. -/
def invoke (body : Option Json) (msgParseOk : Json → Bool)
    (run : AppRun) : InvokeResult :=
  match body with
  | none => .badRequest 400 "Invalid JSON"
  | some payload =>
    if sessionIdBad payload then .badRequest 400 "session_id is required"
    else
      match payload.get "message" with
      | some (Json.obj fields) =>
        if msgParseOk (Json.obj fields) then
          let md :=
            match payload.get "metadata" with
            | none => Json.obj []
            | some v => if v.falsy then Json.obj [] else v
          if md.isObj then .streamR (eventIter run)
          else .badRequest 400 "metadata must be an object"
        else .badRequest 400 "invalid message"
      | _ => .badRequest 400 "message must be an object"

/-! ## Platform chat gateway: POST /chat (platform/server.py) -/

/-- One element of a `tool_result` block's content list: a dict with an
optional `text` field, a plain string, or anything else (skipped). -/
inductive ResultItem where
  | dictItem (text : Option String)
  | strItem (s : String)
  | otherItem

/-- Text contributed by one content item. -/
def resultItemText : ResultItem → String
  | .dictItem t => t.getD ""
  | .strItem s => s
  | .otherItem => ""

/-- A `tool_result` block's raw content: a list, a string, or neither. -/
inductive ResultContent where
  | listC (items : List ResultItem)
  | strC (s : String)
  | otherC

/-- The `result_text` extraction loop of `ChatServer._stream_response`. -/
def resultContentText : ResultContent → String
  | .listC items => items.foldl (fun acc it => acc ++ resultItemText it) ""
  | .strC s => s
  | .otherC => ""

/-- A content block of an agent chunk, with the optional dict fields read
via `block.get(...)`. -/
inductive Block where
  | textB (text : Option String)
  | toolUseB (id name : Option String) (input : Option Json)
  | toolResultB (toolUseId : Option String) (content : ResultContent)
  | otherB

/-- An SSE event emitted by `/chat` (the `type`-tagged JSON payloads). -/
inductive ChatFrame where
  | textEv (content : String)
  | toolCallEv (id name : String) (input : Json)
  | toolResultEv (toolUseId result : String)
  | doneEv
  | errorEv (message : String)

/-- Events produced for one block (blocks of other types emit nothing). -/
def blockFrames : Block → List ChatFrame
  | .textB t => [.textEv (t.getD "")]
  | .toolUseB i n inp =>
    [.toolCallEv (i.getD "") (n.getD "") (inp.getD (Json.obj []))]
  | .toolResultB tid c => [.toolResultEv (tid.getD "") (resultContentText c)]
  | .otherB => []

/-- Events produced for the blocks of one chunk, in order. -/
def framesOfBlocks : List Block → List ChatFrame
  | [] => []
  | b :: rest => blockFrames b ++ framesOfBlocks rest

/-- Events produced for a sequence of chunks, in production order. -/
def chunksFrames : List (List Block) → List ChatFrame
  | [] => []
  | c :: rest => framesOfBlocks c ++ chunksFrames rest

/-- One run of the `/chat` pipeline: whether session load raised, the
chunks the agent produced (each a list of content blocks), whether the
agent raised after producing them, and whether session save raised. -/
structure ChatRun where
  loadFail : Option String
  chunks : List (List Block)
  agentFail : Option String
  saveFail : Option String

/-- An action observable in the `/chat` pipeline: the session load, the
agent invocation, the emission of one SSE event, the session save. -/
inductive ChatAction where
  | loadAct (sessionId : Json)
  | invokeAgentAct
  | emitAct (f : ChatFrame)
  | saveAct (sessionId : Json)

/-- `ChatServer._stream_response` as an action trace: load the session,
invoke the agent, forward each produced event, save the session, emit the
done event; any exception anywhere in that `try` body is answered by a
single error event, after which the generator returns. -/
def chatTrace (sid : Json) (r : ChatRun) : List ChatAction :=
  ChatAction.loadAct sid ::
    match r.loadFail with
    | some e => [ChatAction.emitAct (.errorEv e)]
    | none =>
      ChatAction.invokeAgentAct ::
        ((chunksFrames r.chunks).map ChatAction.emitAct ++
          match r.agentFail with
          | some e => [ChatAction.emitAct (.errorEv e)]
          | none =>
            ChatAction.saveAct sid ::
              match r.saveFail with
              | some e => [ChatAction.emitAct (.errorEv e)]
              | none => [ChatAction.emitAct .doneEv])

/-- The frames of `ChatServer._stream_response` (the emissions of the
trace). -/
def chatFrames (r : ChatRun) : List ChatFrame :=
  match r.loadFail with
  | some e => [.errorEv e]
  | none =>
    chunksFrames r.chunks ++
      match r.agentFail with
      | some e => [.errorEv e]
      | none =>
        match r.saveFail with
        | some e => [.errorEv e]
        | none => [.doneEv]

/-- Whether a chat frame is the terminal done event. -/
def isTerminalChat : ChatFrame → Bool
  | .doneEv => true
  | _ => false

/-- Whether the whole `/chat` pipeline ran without an exception. -/
def chatSuccess (r : ChatRun) : Bool :=
  r.loadFail.isNone && r.agentFail.isNone && r.saveFail.isNone

/-- The HTTP-level result of `POST /chat`. -/
inductive ChatResult where
  | badRequest (detail : String)
  | streamR (frames : List ChatFrame)

/-- Whether the chat endpoint opened the SSE stream. -/
def ChatResult.isStream : ChatResult → Bool
  | .streamR _ => true
  | _ => false

/-- The session id the `/chat` handler uses: `body.get("session_id",
"default")`, with no further validation. -/
def chatSessionId (payload : Json) : Json :=
  (payload.get "session_id").getD (Json.str "default")

/-- The `message` validation of `/chat`: `body.get("message")` is absent
or falsy (`if not message`). -/
def messageFalsy (payload : Json) : Bool :=
  match payload.get "message" with
  | none => true
  | some m => m.falsy

/-- The `/chat` request handler: rejects invalid JSON and a missing or
falsy `message` with HTTP 400; otherwise opens the stream, whatever the
session id is. -/
def chatEndpoint (body : Option Json) (r : ChatRun) : ChatResult :=
  match body with
  | none => .badRequest "Invalid JSON"
  | some payload =>
    if messageFalsy payload then .badRequest "Missing 'message' field"
    else .streamR (chatFrames r)

/-- The emitted frame of a chat action, if it is an emission. -/
def emittedFrame : ChatAction → Option ChatFrame
  | .emitAct f => some f
  | _ => none

/-! ## File session backend (platform/session_backend.py) -/

/-- Modelled from the spec: `StateModule` (agentscope/module, not under
src/) is, per the spec, a component holding a serializable state; its
`state_dict` serializes the state to a nested value and `load_state_dict`
restores the state from such a value. -/
structure StateModule where
  state : Json

/-- Modelled from the spec: `StateModule.state_dict`. -/
def stateDict (m : StateModule) : Json := m.state

/-- Modelled from the spec: `StateModule.load_state_dict`. -/
def loadStateDict (_m : StateModule) (s : Json) : StateModule := ⟨s⟩

/-- The filesystem under the backend's save directory, as a map from path
to the JSON document stored in the file (serialization elided). -/
def FileSys : Type := String → Option Json

/-- `FileSessionBackend._get_path`. -/
def sessionPath (saveDir sid : String) : String :=
  saveDir ++ "/" ++ sid ++ ".json"

/-- `FileSessionBackend.save`: serialize each named component's state and
fully overwrite the session file with the bundle. -/
def fileSave (saveDir sid : String)
    (modules : List (String × StateModule)) (fs : FileSys) : FileSys :=
  fun p =>
    if p = sessionPath saveDir sid then
      some (Json.obj (modules.map (fun nm => (nm.1, stateDict nm.2))))
    else fs p

/-- The session-backend error raised on a missing session. -/
inductive SessionError where
  | sessionNotFound (path : String)

/-- `FileSessionBackend.load`: a missing file is a no-op when
`allow_not_exist` is true and a `SessionError` otherwise; when present,
each requested component whose name occurs in the payload is restored and
the others are left at their current state. -/
def fileLoad (saveDir sid : String) (allowNotExist : Bool)
    (modules : List (String × StateModule)) (fs : FileSys) :
    Except SessionError (List (String × StateModule)) :=
  match fs (sessionPath saveDir sid) with
  | none =>
    if allowNotExist then .ok modules
    else .error (.sessionNotFound (sessionPath saveDir sid))
  | some payload =>
    .ok (modules.map (fun nm =>
      match payload.get nm.1 with
      | some st => (nm.1, loadStateDict nm.2 st)
      | none => nm))

/-! ## Concrete fixtures used by witnesses and counterexamples -/

/-- An already-initialized runtime instance. -/
def rtAlready : RuntimeS :=
  { RuntimeS.fresh with initialized := true }

/-- An init world where every external step succeeds trivially. -/
def wInitOk : InitWorld :=
  ⟨.ok ⟨[], [], ⟨"./sessions"⟩⟩, fun _ _ => .ok 5, fun _ _ => .ok 1,
   fun _ => .ok (), .ok 9, .ok ()⟩

/-- An initialized runtime with three registered MCP clients. -/
def rtShut : RuntimeS :=
  { RuntimeS.fresh with
    initialized := true
    app := some 9
    mcpClients := [1, 2, 3] }

/-- A shutdown world where closing client 2 fails. -/
def wShut : ShutWorld :=
  ⟨.ok (), fun c => if c = 2 then .error "close failed" else .ok ()⟩

/-- A configuration with one model slot and two MCP servers. -/
def cfgTwoMcp : RuntimeConfig :=
  ⟨[("main", ⟨"openai", "gpt-4"⟩)],
   [("a", ⟨"http://x", "sse"⟩), ("b", ⟨"http://y", "sse"⟩)],
   ⟨"./sessions"⟩⟩

/-- An init world for `cfgTwoMcp` where connecting the second MCP server
fails. -/
def wInitMcpFail : InitWorld :=
  ⟨.ok cfgTwoMcp, fun _ _ => .ok 5,
   fun n _ => if n = "a" then .ok 1 else .error "connect failed",
   fun _ => .ok (), .ok 9, .ok ()⟩

/-- The state after the model loop of a failed `cfgTwoMcp` initialize. -/
def rtAfterModels : RuntimeS :=
  { RuntimeS.fresh with
    config := some cfgTwoMcp
    models := ⟨[("main", 5)]⟩ }

/-- The state retained after the second MCP connection fails. -/
def rtAfterMcpFail : RuntimeS :=
  { rtAfterModels with
    tools := some [1]
    mcpClients := [1] }

/-- A registry with one registered slot. -/
def regMain : ModelRegistry := ⟨[("main", 7)]⟩

/-- A disabled platform client (no endpoint, no instance id). -/
def disabledClient : PlatformClientS := ⟨⟨none, none, 30⟩, false, 0, []⟩

/-- A well-formed `/chat` body whose `session_id` is the empty string. -/
def exEmptySidBody : Json :=
  .obj [("session_id", .str ""), ("message", .str "hi")]

/-- A `/invoke` body with no `session_id` field. -/
def exNoSidBody : Json := .obj [("message", .obj [])]

/-- A `/invoke` body whose `message` is a number rather than an object. -/
def exBadMsgBody : Json :=
  .obj [("session_id", .str "s"), ("message", .num 5)]

/-- A chat pipeline run where the agent raises before producing output. -/
def exChatRunFail : ChatRun := ⟨none, [], some "boom", none⟩

/-- A fully successful chat pipeline run with one text chunk. -/
def exChatRunOk : ChatRun := ⟨none, [[Block.textB (some "hello")]], none, none⟩

/-- An app run producing no units and raising nothing. -/
def exAppRun : AppRun := ⟨[], none⟩

/-- The empty filesystem: no session has ever been saved. -/
def fsEmpty : FileSys := fun _ => none

/-! ## Helper lemmas -/

theorem closeAllLoop_targets (w : ShutWorld) :
    ∀ l : List ClientH, (closeAllLoop w l).filterMap closeTarget = l := by
  intro l
  induction l with
  | nil => rfl
  | cons c rest ih => simp [closeAllLoop, List.filterMap_cons, closeTarget, ih]

theorem registerModelsLoop_fst_initialized (w : InitWorld) :
    ∀ (l : List (String × ModelConfig)) (rt : RuntimeS),
      ((registerModelsLoop w rt l).1).initialized = rt.initialized := by
  intro l
  induction l with
  | nil => intro rt; rfl
  | cons p rest ih =>
    intro rt
    obtain ⟨n, mc⟩ := p
    simp only [registerModelsLoop]
    cases hcm : w.createModel n mc with
    | error e => rfl
    | ok m => simp [ih]

theorem registerModelsLoop_fst_config (w : InitWorld) :
    ∀ (l : List (String × ModelConfig)) (rt : RuntimeS),
      ((registerModelsLoop w rt l).1).config = rt.config := by
  intro l
  induction l with
  | nil => intro rt; rfl
  | cons p rest ih =>
    intro rt
    obtain ⟨n, mc⟩ := p
    simp only [registerModelsLoop]
    cases hcm : w.createModel n mc with
    | error e => rfl
    | ok m => simp [ih]

theorem connectMcpLoop_fst_initialized (w : InitWorld) :
    ∀ (l : List (String × MCPServerConfig)) (rt : RuntimeS),
      ((connectMcpLoop w rt l).1).initialized = rt.initialized := by
  intro l
  induction l with
  | nil => intro rt; rfl
  | cons p rest ih =>
    intro rt
    obtain ⟨n, sc⟩ := p
    simp only [connectMcpLoop]
    cases hmc : w.mcpConnect n sc with
    | error e => rfl
    | ok c =>
      cases hrt : w.registerTools c with
      | error e => simp [hrt]
      | ok u => simp [hrt, ih]

theorem connectMcpLoop_fst_config (w : InitWorld) :
    ∀ (l : List (String × MCPServerConfig)) (rt : RuntimeS),
      ((connectMcpLoop w rt l).1).config = rt.config := by
  intro l
  induction l with
  | nil => intro rt; rfl
  | cons p rest ih =>
    intro rt
    obtain ⟨n, sc⟩ := p
    simp only [connectMcpLoop]
    cases hmc : w.mcpConnect n sc with
    | error e => rfl
    | ok c =>
      cases hrt : w.registerTools c with
      | error e => simp [hrt]
      | ok u => simp [hrt, ih]

theorem countP_unitFramesLoop (us : List (Option Json)) :
    (unitFramesLoop us).countP isTerminal = 0 := by
  induction us with
  | nil => rfl
  | cons u rest ih =>
    cases u <;>
      simp [unitFramesLoop, serializeUnitFrame, isTerminal,
        List.countP_cons, ih]

theorem countP_blockFrames (b : Block) :
    (blockFrames b).countP isTerminalChat = 0 := by
  cases b <;> simp [blockFrames, isTerminalChat, List.countP_cons]

theorem countP_framesOfBlocks (bs : List Block) :
    (framesOfBlocks bs).countP isTerminalChat = 0 := by
  induction bs with
  | nil => rfl
  | cons b rest ih =>
    simp [framesOfBlocks, List.countP_append, countP_blockFrames b, ih]

theorem countP_chunksFrames (cs : List (List Block)) :
    (chunksFrames cs).countP isTerminalChat = 0 := by
  induction cs with
  | nil => rfl
  | cons c rest ih =>
    simp [chunksFrames, List.countP_append, countP_framesOfBlocks c, ih]

theorem filterMap_emittedFrame_map (fs : List ChatFrame) :
    List.filterMap (emittedFrame ∘ ChatAction.emitAct) fs = fs := by
  induction fs with
  | nil => rfl
  | cons f rest ih =>
    simp [List.filterMap_cons, emittedFrame, Function.comp, ih]

/-- The frames of the chat stream are exactly the emissions of its action
trace, for any session id. -/
theorem chatFrames_eq_trace_emissions (sid : Json) (r : ChatRun) :
    (chatTrace sid r).filterMap emittedFrame = chatFrames r := by
  obtain ⟨lf, cs, af, sf⟩ := r
  cases lf with
  | some e => simp [chatTrace, chatFrames, List.filterMap_cons, emittedFrame]
  | none =>
    cases af with
    | some e =>
      simp [chatTrace, chatFrames, List.filterMap_cons, emittedFrame,
        List.filterMap_append, filterMap_emittedFrame_map]
    | none =>
      cases sf <;>
        simp [chatTrace, chatFrames, List.filterMap_cons, emittedFrame,
          List.filterMap_append, filterMap_emittedFrame_map]

/-! ## Claim theorems -/

/-- Claim C3: calling initialize on an already-initialized Runtime
instance (no intervening shutdown) fails with the "already initialized"
error, and the rejection performs no mutation at all: the instance state
returned is exactly the state before the call, so configuration, model
registry, MCP client list, toolkit, session store, loaded app and the
initialized flag are all unchanged. -/
theorem C3_duplicate_initialize_rejected (rt : RuntimeS) (w : InitWorld)
    (h : rt.initialized = true) :
    initializeRt rt w = (rt, some alreadyInitializedMsg) := by
  simp [initializeRt, h]

theorem C3_duplicate_initialize_rejected_witness :
    rtAlready.initialized = true ∧
    initializeRt rtAlready wInitOk = (rtAlready, some alreadyInitializedMsg) :=
  ⟨rfl, C3_duplicate_initialize_rejected rtAlready wInitOk rfl⟩

/-- Claim C4: on an initialized Runtime instance, shutdown issues a close
call to every registered MCP client, in exactly the reverse of their
registration order, whatever the per-client close outcomes are (so one
client's close failure does not prevent the others from being released);
shutdown on an uninitialized instance is a no-op with no effects. -/
theorem C4_shutdown_reverse_release (rt : RuntimeS) (w : ShutWorld) :
    (rt.initialized = true →
      ((shutdownRt rt w).2).filterMap closeTarget = rt.mcpClients.reverse) ∧
    (rt.initialized = false → shutdownRt rt w = (rt, [])) := by
  constructor
  · intro h
    cases ha : rt.app <;>
      simp [shutdownRt, h, ha, closeTarget, List.filterMap_append,
        List.filterMap_cons, closeAllLoop_targets]
  · intro h
    simp [shutdownRt, h]

theorem C4_shutdown_reverse_release_witness :
    rtShut.initialized = true ∧
    ((shutdownRt rtShut wShut).2).filterMap closeTarget =
      rtShut.mcpClients.reverse ∧
    RuntimeS.fresh.initialized = false ∧
    shutdownRt RuntimeS.fresh wShut = (RuntimeS.fresh, []) :=
  ⟨rfl, (C4_shutdown_reverse_release rtShut wShut).1 rfl, rfl,
    (C4_shutdown_reverse_release RuntimeS.fresh wShut).2 rfl⟩

/-- Claim C10: when initialize on an uninitialized instance gets through
configuration loading and model registration but fails while connecting an
MCP client, the raised error leaves the instance exactly in the partially
mutated state built so far (recorded configuration, registered models and
already-connected MCP clients retained, initialized flag still false), and
a subsequent shutdown on that instance is a no-op that closes nothing. -/
theorem C10_failed_initialize_keeps_partial_state
    (rt : RuntimeS) (w : InitWorld) (cfg : RuntimeConfig)
    (rtm rtc : RuntimeS) (e : String) (w2 : ShutWorld)
    (h0 : rt.initialized = false)
    (hc : w.configResult = .ok cfg)
    (hm : registerModelsLoop w { rt with config := some cfg } cfg.models =
      (rtm, none))
    (hx : connectMcpLoop w { rtm with tools := some [] } cfg.mcpServers =
      (rtc, some e)) :
    initializeRt rt w = (rtc, some e) ∧
    rtc.initialized = false ∧
    rtc.config = some cfg ∧
    shutdownRt rtc w2 = (rtc, []) := by
  have hrtc : (connectMcpLoop w { rtm with tools := some [] }
      cfg.mcpServers).1 = rtc := by rw [hx]
  have hrtm : (registerModelsLoop w { rt with config := some cfg }
      cfg.models).1 = rtm := by rw [hm]
  have hinitm : rtm.initialized = false := by
    rw [← hrtm, registerModelsLoop_fst_initialized]
    exact h0
  have hinit : rtc.initialized = false := by
    rw [← hrtc, connectMcpLoop_fst_initialized]
    exact hinitm
  have hcfgm : rtm.config = some cfg := by
    rw [← hrtm, registerModelsLoop_fst_config]
  have hcfg : rtc.config = some cfg := by
    rw [← hrtc, connectMcpLoop_fst_config]
    exact hcfgm
  rw [h0] at hm
  refine ⟨?_, hinit, hcfg, ?_⟩
  · simp [initializeRt, h0, hc, hm, hx]
  · simp [shutdownRt, hinit]

theorem C10_failed_initialize_keeps_partial_state_witness :
    RuntimeS.fresh.initialized = false ∧
    wInitMcpFail.configResult = .ok cfgTwoMcp ∧
    registerModelsLoop wInitMcpFail
      { RuntimeS.fresh with config := some cfgTwoMcp } cfgTwoMcp.models =
      (rtAfterModels, none) ∧
    connectMcpLoop wInitMcpFail { rtAfterModels with tools := some [] }
      cfgTwoMcp.mcpServers = (rtAfterMcpFail, some "connect failed") ∧
    (initializeRt RuntimeS.fresh wInitMcpFail =
        (rtAfterMcpFail, some "connect failed") ∧
      rtAfterMcpFail.initialized = false ∧
      rtAfterMcpFail.config = some cfgTwoMcp ∧
      shutdownRt rtAfterMcpFail wShut = (rtAfterMcpFail, [])) :=
  ⟨rfl, rfl, by decide, by decide,
    C10_failed_initialize_keeps_partial_state RuntimeS.fresh wInitMcpFail
      cfgTwoMcp rtAfterModels rtAfterMcpFail "connect failed" wShut
      rfl rfl (by decide) (by decide)⟩

/-- Claim C6: saving a component named "memory" with state S and then
loading the same session identifier with allow_missing = False into a
fresh component under the name "memory" restores that component to exactly
the state S, for every serializable state, session identifier, save
directory, prior filesystem content and prior component state. -/
theorem C6_save_load_roundtrip (saveDir sid : String) (S : Json)
    (M : StateModule) (fs : FileSys) :
    fileLoad saveDir sid false [("memory", M)]
      (fileSave saveDir sid [("memory", ⟨S⟩)] fs) =
      .ok [("memory", (⟨S⟩ : StateModule))] := by
  simp [fileLoad, fileSave, stateDict, loadStateDict, Json.get, assocGet]

/-- Claim C7: loading a session identifier that has never been saved is a
no-op returning every caller-supplied component unchanged when
allow_missing is true, and fails with the session-not-found error when
allow_missing is false. -/
theorem C7_missing_session_load (saveDir sid : String)
    (modules : List (String × StateModule)) (fs : FileSys)
    (h : fs (sessionPath saveDir sid) = none) :
    fileLoad saveDir sid true modules fs = .ok modules ∧
    fileLoad saveDir sid false modules fs =
      .error (.sessionNotFound (sessionPath saveDir sid)) := by
  simp [fileLoad, h]

theorem C7_missing_session_load_witness :
    fsEmpty (sessionPath "./sessions" "s1") = none ∧
    fileLoad "./sessions" "s1" true [("memory", ⟨Json.null⟩)] fsEmpty =
      .ok [("memory", ⟨Json.null⟩)] ∧
    fileLoad "./sessions" "s1" false [("memory", ⟨Json.null⟩)] fsEmpty =
      .error (.sessionNotFound (sessionPath "./sessions" "s1")) :=
  ⟨rfl,
    (C7_missing_session_load "./sessions" "s1" [("memory", ⟨Json.null⟩)]
      fsEmpty rfl).1,
    (C7_missing_session_load "./sessions" "s1" [("memory", ⟨Json.null⟩)]
      fsEmpty rfl).2⟩

/-- Claim C8, counterexample: the slot name "_x" is not registered in an
empty registry, yet its attribute-style lookup fails with the plain
`AttributeError`, whose message does not enumerate the registered slot
names — refuting "every lookup of an unregistered name fails with an
error whose message enumerates the currently registered slot names". -/
theorem C8_counterexample :
    (ModelRegistry.mk []).contains "_x" = false ∧
    (ModelRegistry.mk []).getattr "_x" =
      .error (.noAttribute "ModelRegistry" "_x") ∧
    LookupError.enumeratesSlots (.noAttribute "ModelRegistry" "_x") =
      false :=
  ⟨rfl, rfl, rfl⟩

/-- Claim C8, amended: for slot names not beginning with an underscore,
every lookup of an unregistered name (attribute-style and key-style alike)
fails with an error that enumerates the currently registered slot names,
and registered names are returned unchanged; key-style lookup behaves this
way for all names, while attribute-style lookup of any name beginning with
an underscore fails with a plain attribute error that enumerates
nothing. -/
theorem C8_lookup_errors (reg : ModelRegistry) (name : String)
    (h : startsWithUnderscore name = false) :
    (assocGet reg.models name = none →
      reg.getattr name = .error (.slotNotFoundAttr name reg.keys) ∧
      reg.getitem name = .error (.slotNotFoundKey name reg.keys) ∧
      (LookupError.slotNotFoundAttr name reg.keys).enumeratesSlots = true ∧
      (LookupError.slotNotFoundKey name reg.keys).enumeratesSlots = true) ∧
    (∀ m : ModelH, assocGet reg.models name = some m →
      reg.getattr name = .ok m ∧ reg.getitem name = .ok m) ∧
    (∀ n : String, startsWithUnderscore n = true →
      reg.getattr n = .error (.noAttribute "ModelRegistry" n)) := by
  refine ⟨fun hmiss => ?_, fun m hhit => ?_, fun n hn => ?_⟩
  · simp [ModelRegistry.getattr, ModelRegistry.getitem, h, hmiss,
      LookupError.enumeratesSlots]
  · simp [ModelRegistry.getattr, ModelRegistry.getitem, h, hhit]
  · simp [ModelRegistry.getattr, hn]

theorem C8_lookup_errors_witness :
    startsWithUnderscore "other" = false ∧
    startsWithUnderscore "main" = false ∧
    assocGet regMain.models "other" = none ∧
    assocGet regMain.models "main" = some 7 ∧
    (regMain.getattr "other" =
        .error (.slotNotFoundAttr "other" regMain.keys) ∧
      regMain.getitem "other" =
        .error (.slotNotFoundKey "other" regMain.keys) ∧
      (LookupError.slotNotFoundAttr "other" regMain.keys).enumeratesSlots =
        true ∧
      (LookupError.slotNotFoundKey "other" regMain.keys).enumeratesSlots =
        true) ∧
    (regMain.getattr "main" = .ok 7 ∧ regMain.getitem "main" = .ok 7) ∧
    regMain.getattr "_private" =
      .error (.noAttribute "ModelRegistry" "_private") :=
  ⟨rfl, rfl, rfl, rfl,
    (C8_lookup_errors regMain "other" rfl).1 rfl,
    (C8_lookup_errors regMain "main" rfl).2.1 7 rfl,
    (C8_lookup_errors regMain "other" rfl).2.2 "_private" rfl⟩

/-- Claim C9, counterexample: on a disabled supervisory client (no
endpoint and no instance id configured), record_request is not a no-op: it
increments the request counter and grows the session-seen set — refuting
"every operation of the client leaves the request counter and session-seen
set unchanged when disabled". -/
theorem C9_counterexample :
    disabledClient.enabled = false ∧
    (disabledClient.recordRequest "sess-1").requestCount = 1 ∧
    (disabledClient.recordRequest "sess-1").activeSessions = ["sess-1"] :=
  ⟨rfl, rfl, rfl⟩

/-- Claim C9, amended: on a disabled supervisory client, sending a
heartbeat and polling for configuration updates perform no network I/O,
and start does not create the background task and leaves the state
unchanged; record_request, however, is not guarded by the enabled flag:
it performs no network I/O but always increments the request counter and
adds the session identifier to the seen set. -/
theorem C9_disabled_noop (s : PlatformClientS) (h : s.enabled = false) :
    s.sendHeartbeatEffects = [] ∧
    s.checkConfigUpdateEffects = [] ∧
    s.start = s ∧
    (∀ sid : String,
      (s.recordRequest sid).requestCount = s.requestCount + 1 ∧
      (s.recordRequest sid).activeSessions =
        insertSession sid s.activeSessions) := by
  refine ⟨?_, ?_, ?_, fun sid => ⟨rfl, rfl⟩⟩
  · cases hep : s.config.endpoint <;> cases hid : s.config.instanceId <;>
      simp_all [PlatformClientS.enabled, PlatformClientS.sendHeartbeatEffects]
  · cases hep : s.config.endpoint <;> cases hid : s.config.instanceId <;>
      simp_all [PlatformClientS.enabled,
        PlatformClientS.checkConfigUpdateEffects]
  · simp [PlatformClientS.start, h]

theorem C9_disabled_noop_witness :
    disabledClient.enabled = false ∧
    (disabledClient.sendHeartbeatEffects = [] ∧
      disabledClient.checkConfigUpdateEffects = [] ∧
      disabledClient.start = disabledClient ∧
      (∀ sid : String,
        (disabledClient.recordRequest sid).requestCount =
          disabledClient.requestCount + 1 ∧
        (disabledClient.recordRequest sid).activeSessions =
          insertSession sid disabledClient.activeSessions)) :=
  ⟨rfl, C9_disabled_noop disabledClient rfl⟩

/-- Claim C1, counterexample: a request accepted by the platform /chat
gateway whose agent raises before producing any unit yields a stream whose
only frame is the error unit: the stream closes with zero terminal
markers — refuting "the emitted frame sequence always ends with exactly
one terminal marker". -/
theorem C1_counterexample :
    chatEndpoint (some exEmptySidBody) exChatRunFail =
      ChatResult.streamR [ChatFrame.errorEv "boom"] ∧
    (chatFrames exChatRunFail).countP isTerminalChat = 0 :=
  ⟨rfl, rfl⟩

/-- Claim C1, amended: the runtime /invoke gateway's frame sequence always
ends with exactly one terminal marker, with a single error unit inserted
before it when the handler raises partway; the platform /chat gateway
emits exactly one terminal marker only when session load, the agent and
session save all complete normally — when any of them raises, a single
error unit is transmitted and the stream closes with no terminal
marker. -/
theorem C1_terminal_marker :
    (∀ run : AppRun,
      (eventIter run).countP isTerminal = 1 ∧
      (eventIter run).getLast? = some Frame.doneF) ∧
    (∀ r : ChatRun,
      (chatFrames r).countP isTerminalChat =
        if chatSuccess r then 1 else 0) := by
  constructor
  · intro run
    obtain ⟨us, rm⟩ := run
    constructor
    · cases rm <;>
        simp [eventIter, List.countP_append, countP_unitFramesLoop,
          isTerminal, List.countP_cons]
    · simp only [eventIter]
      exact List.getLast?_concat _
  · intro r
    obtain ⟨lf, cs, af, sf⟩ := r
    cases lf with
    | some e =>
      simp [chatFrames, chatSuccess, isTerminalChat, List.countP_cons]
    | none =>
      cases af with
      | some e =>
        simp [chatFrames, chatSuccess, isTerminalChat, List.countP_append,
          countP_chunksFrames, List.countP_cons]
      | none =>
        cases sf <;>
          simp [chatFrames, chatSuccess, isTerminalChat,
            List.countP_append, countP_chunksFrames, List.countP_cons]

/-- Claim C2: within one /chat request that completes normally, the
action trace is exactly: the session load, then the agent invocation,
then the emission of the agent's units in production order, then the
session save, then the terminal marker emission — so load completes
before the handler runs, units are forwarded unreordered, and save falls
between the last unit and the terminal marker. -/
theorem C2_request_ordering (sid : Json) (r : ChatRun)
    (h : chatSuccess r = true) :
    chatTrace sid r =
      [ChatAction.loadAct sid, ChatAction.invokeAgentAct] ++
        (chunksFrames r.chunks).map ChatAction.emitAct ++
        [ChatAction.saveAct sid, ChatAction.emitAct ChatFrame.doneEv] := by
  obtain ⟨lf, cs, af, sf⟩ := r
  simp only [chatSuccess, Bool.and_eq_true, Option.isNone_iff_eq_none] at h
  obtain ⟨⟨h1, h2⟩, h3⟩ := h
  subst h1; subst h2; subst h3
  simp [chatTrace]

theorem C2_request_ordering_witness :
    chatSuccess exChatRunOk = true ∧
    chatTrace (Json.str "s1") exChatRunOk =
      [ChatAction.loadAct (Json.str "s1"), ChatAction.invokeAgentAct] ++
        (chunksFrames exChatRunOk.chunks).map ChatAction.emitAct ++
        [ChatAction.saveAct (Json.str "s1"),
          ChatAction.emitAct ChatFrame.doneEv] :=
  ⟨rfl, C2_request_ordering (Json.str "s1") exChatRunOk rfl⟩

/-- Claim C5, counterexample: a /chat request whose session identifier is
the empty string is not rejected: the gateway opens the event stream —
refuting "a request whose session identifier is the empty string is
rejected with HTTP 400 and the event stream is never opened". -/
theorem C5_counterexample :
    exEmptySidBody.get "session_id" = some (Json.str "") ∧
    (chatEndpoint (some exEmptySidBody) exChatRunOk).isStream = true :=
  ⟨rfl, rfl⟩

/-- Claim C5, amended: the runtime /invoke gateway rejects malformed JSON,
a missing, non-string or empty session identifier, and a non-object
message with HTTP 400, never opening the event stream; the platform /chat
gateway rejects only malformed JSON and a missing-or-falsy message with
HTTP 400, and otherwise opens the stream whatever the session identifier
is (missing ones default to "default", empty ones are accepted). -/
theorem C5_request_validation :
    (∀ (mp : Json → Bool) (run : AppRun),
      invoke none mp run = .badRequest 400 "Invalid JSON") ∧
    (∀ (payload : Json) (mp : Json → Bool) (run : AppRun),
      sessionIdBad payload = true →
      invoke (some payload) mp run =
        .badRequest 400 "session_id is required") ∧
    (∀ (payload : Json) (mp : Json → Bool) (run : AppRun),
      sessionIdBad payload = false → messageNotObj payload = true →
      invoke (some payload) mp run =
        .badRequest 400 "message must be an object") ∧
    (∀ r : ChatRun, chatEndpoint none r = .badRequest "Invalid JSON") ∧
    (∀ (payload : Json) (r : ChatRun),
      messageFalsy payload = false →
      (chatEndpoint (some payload) r).isStream = true) := by
  refine ⟨fun mp run => rfl, fun payload mp run h => ?_,
    fun payload mp run h1 h2 => ?_, fun r => rfl,
    fun payload r h => ?_⟩
  · simp [invoke, h]
  · cases hm : payload.get "message" with
    | none => simp [invoke, h1, hm]
    | some m =>
      cases m <;> simp_all [invoke, messageNotObj, hm]
  · simp [chatEndpoint, h, ChatResult.isStream]

theorem C5_request_validation_witness :
    (sessionIdBad exNoSidBody = true ∧
      invoke (some exNoSidBody) (fun _ => true) exAppRun =
        .badRequest 400 "session_id is required") ∧
    (sessionIdBad exBadMsgBody = false ∧
      messageNotObj exBadMsgBody = true ∧
      invoke (some exBadMsgBody) (fun _ => true) exAppRun =
        .badRequest 400 "message must be an object") ∧
    (messageFalsy exEmptySidBody = false ∧
      (chatEndpoint (some exEmptySidBody) exChatRunFail).isStream = true) :=
  ⟨⟨rfl, C5_request_validation.2.1 exNoSidBody (fun _ => true) exAppRun rfl⟩,
    ⟨rfl, rfl,
      C5_request_validation.2.2.1 exBadMsgBody (fun _ => true) exAppRun
        rfl rfl⟩,
    ⟨rfl,
      C5_request_validation.2.2.2.2 exEmptySidBody exChatRunFail rfl⟩⟩

end AScope
